import Mathlib

/-!
Shallow embedding of the task-manager web application
(`app.py`, `models.py`, `seed-dev-data.py`).

Conventions of the embedding:
* Database state is an explicit `DB` value (lists of `User` and `Task` rows);
  SQLAlchemy queries become list operations (`filter_by` → `List.filter` /
  `List.find?`, `first_or_404` → `Option` with a 404 response on `none`).
* Wall-clock timestamps (`datetime.utcnow()`) are abstract `Nat` instants
  passed to each handler as a `now` argument.
* The salted password hash of werkzeug is abstracted to an injective tagging
  function; only hash-then-check round trips matter to the routes.
* Handlers are modelled on their commit-success path: the `try/except` around
  `db.session.commit()` only rolls back and re-renders, and no claim below is
  about a commit failure inside a route handler.  The seed utility, whose
  catch-all `except` IS part of a claim, takes an explicit failure flag.
-/

namespace TodoApp

/-- A calendar date as produced by `datetime.strptime(s, "%Y-%m-%d").date()`. -/
structure Date where
  year : Nat
  month : Nat
  day : Nat
deriving Repr, DecidableEq

/-- Python `str.strip()`: the string with leading and trailing whitespace
removed (structurally recursive over the character list, so that concrete
instances evaluate). -/
def pyStrip (s : String) : String :=
  ⟨((s.data.dropWhile Char.isWhitespace).reverse.dropWhile Char.isWhitespace).reverse⟩

/-- A non-empty all-digit character sequence read as a decimal number
(`none` otherwise), the digit matching done by `strptime`. -/
def digitsToNat? (l : List Char) : Option Nat :=
  if l ≠ [] ∧ l.all Char.isDigit then
    some (l.foldl (fun n c => n * 10 + (c.toNat - 48)) 0)
  else none

/-- Split a character list at every occurrence of `sep` (the separator
handling of `strptime` for the literal `-` of the format string). -/
def splitOnChar (sep : Char) : List Char → List (List Char)
  | [] => [[]]
  | c :: rest =>
    match splitOnChar sep rest with
    | [] => [[c]]
    | h :: t => if c = sep then [] :: h :: t else (c :: h) :: t

/-- Gregorian leap-year rule used by Python `datetime` for day validation. -/
def isLeapYear (y : Nat) : Bool :=
  (y % 4 == 0 && y % 100 != 0) || (y % 400 == 0)

/-- Days in a month, as validated by the Python `datetime` constructor. -/
def daysInMonth (y m : Nat) : Nat :=
  if m == 2 then (if isLeapYear y then 29 else 28)
  else if m == 4 || m == 6 || m == 9 || m == 11 then 30
  else 31

/-- `datetime.strptime(s, "%Y-%m-%d")`: CPython matches `%Y` as exactly four
digits, `%m` and `%d` as one or two digits, requires the whole string to be
consumed, and the `datetime` constructor then validates the calendar date
(year at least 1, day within the month). Returns `none` on `ValueError`. -/
def strptimeYmd (s : String) : Option Date :=
  match splitOnChar '-' s.data with
  | [ys, ms, ds] =>
    match digitsToNat? ys, digitsToNat? ms, digitsToNat? ds with
    | some y, some m, some d =>
      if ys.length = 4 ∧ 1 ≤ y ∧
         1 ≤ m ∧ m ≤ 12 ∧ ms.length ≤ 2 ∧
         1 ≤ d ∧ d ≤ daysInMonth y m ∧ ds.length ≤ 2 then
        some ⟨y, m, d⟩
      else none
    | _, _, _ => none
  | _ => none

/-- A row of the `users` table (`models.py`, class `User`). -/
structure User where
  id : Nat
  username : String
  email : String
  password_hash : String
  created_at : Nat
  updated_at : Nat
deriving Repr, DecidableEq

/-- A row of the `tasks` table (`models.py`, class `Task`). -/
structure Task where
  id : Nat
  title : String
  description : String
  status : String
  due_date : Option Date
  created_at : Nat
  updated_at : Nat
  user_id : Nat
deriving Repr, DecidableEq

/-- The persistent store: the two tables of the application. -/
structure DB where
  users : List User
  tasks : List Task
deriving Repr, DecidableEq

/-- Abstraction of `werkzeug.security.generate_password_hash`: an injective
tag of the plaintext (the routes only ever hash and verify, never inspect). -/
def generate_password_hash (password : String) : String :=
  "pbkdf2$" ++ password

/-- Abstraction of `werkzeug.security.check_password_hash`, consistent with
`generate_password_hash`. -/
def check_password_hash (hash password : String) : Bool :=
  hash == generate_password_hash password

/-- An HTTP response as the handlers produce it: a rendered template with an
optional flash `(message, category)`, a redirect (302) with an optional flash,
the toggle JSON bodies, or the 404 raised by `first_or_404`. -/
inductive Resp where
  | render (template : String) (flash : Option (String × String))
  | redirect (location : String) (flash : Option (String × String))
  | jsonToggleOk (status message : String)
  | jsonToggleErr (message : String)
  | notFound
deriving Repr, DecidableEq

/-- The HTTP status code of each response shape. -/
def Resp.statusCode : Resp → Nat
  | .render _ _ => 200
  | .redirect _ _ => 302
  | .jsonToggleOk _ _ => 200
  | .jsonToggleErr _ => 500
  | .notFound => 404

/-- `Task.query.filter_by(id=task_id, user_id=current_user.id).first_or_404()`
without the 404 part: the first task matching both the id and the owner. -/
def first_or_404 (db : DB) (task_id user_id : Nat) : Option Task :=
  db.tasks.find? (fun t => t.id == task_id && t.user_id == user_id)

/-- Write back a mutated task row: every row with the same id is replaced
(`db.session.commit()` after in-place attribute assignment). -/
def DB.updateTask (db : DB) (task : Task) : DB :=
  { db with tasks := db.tasks.map (fun t => if t.id == task.id then task else t) }

/-- POST `/register` (`app.py`, `register`): trims username and email, takes
the password as-is, runs the four checks in order, and on success appends a
new `User` with a hashed password and redirects to login. -/
def register (db : DB) (username email password : String)
    (nextId now : Nat) : Resp × DB :=
  let username := pyStrip username
  let email := pyStrip email
  if username = "" ∨ email = "" ∨ password = "" then
    (.render "register.html" (some ("All fields are required", "error")), db)
  else if password.length < 6 then
    (.render "register.html" (some ("Password must be at least 6 characters", "error")), db)
  else if (db.users.find? (fun u => u.username == username)).isSome then
    (.render "register.html" (some ("Username already exists", "error")), db)
  else if (db.users.find? (fun u => u.email == email)).isSome then
    (.render "register.html" (some ("Email already registered", "error")), db)
  else
    let user : User :=
      { id := nextId, username := username, email := email,
        password_hash := generate_password_hash password,
        created_at := now, updated_at := now }
    (.redirect "/login" (some ("Registration successful! Please log in.", "success")),
     { db with users := db.users ++ [user] })

/-- POST `/login` (`app.py`, `login`): trims the username, looks it up, checks
the password hash, and on success redirects to the `next` query parameter when
it is present and non-empty (Python truthiness of `next_page`), otherwise to
the dashboard.  `nextParam = none` models an absent query parameter. -/
def login (db : DB) (username password : String)
    (nextParam : Option String) : Resp :=
  let username := pyStrip username
  if username = "" ∨ password = "" then
    .render "login.html" (some ("Username and password are required", "error"))
  else
    match db.users.find? (fun u => u.username == username) with
    | some user =>
      if check_password_hash user.password_hash password then
        let next_page := nextParam.getD ""
        if next_page ≠ "" then .redirect next_page none
        else .redirect "/dashboard" none
      else .render "login.html" (some ("Invalid username or password", "error"))
    | none => .render "login.html" (some ("Invalid username or password", "error"))

/-- GET `/dashboard` (`app.py`, `dashboard`): `request.args.get('status', 'all')`,
a base query of the current user's tasks, a further status filter unless the
filter is `all`.  The `order_by` of the route only permutes this list (it never
adds or drops rows), so the returned collection is modelled by the filter. -/
def dashboard_tasks (db : DB) (current_user_id : Nat)
    (statusParam : Option String) : List Task :=
  let status_filter := statusParam.getD "all"
  let query := db.tasks.filter (fun t => t.user_id == current_user_id)
  if status_filter ≠ "all" then
    query.filter (fun t => t.status == status_filter)
  else query

/-- The `task_counts` dictionary of the dashboard route: three independent
count queries (all / pending / completed), not depending on the filter. -/
def task_counts (db : DB) (current_user_id : Nat) : Nat × Nat × Nat :=
  ((db.tasks.filter (fun t => t.user_id == current_user_id)).length,
   (db.tasks.filter (fun t => t.user_id == current_user_id && t.status == "pending")).length,
   (db.tasks.filter (fun t => t.user_id == current_user_id && t.status == "completed")).length)

/-- The whole dashboard render: the filtered task list plus the three counts. -/
def dashboard (db : DB) (current_user_id : Nat)
    (statusParam : Option String) : List Task × (Nat × Nat × Nat) :=
  (dashboard_tasks db current_user_id statusParam, task_counts db current_user_id)

/-- The due-date handling shared by task creation and edit: `due_date = None`,
then if the string is non-empty a `strptime` parse whose `ValueError` is the
`.error` case (flash "Invalid due date format"). -/
def parseDueField (due_date_str : String) : Except Unit (Option Date) :=
  if due_date_str = "" then .ok none
  else
    match strptimeYmd due_date_str with
    | some d => .ok (some d)
    | none => .error ()

/-- POST `/task/new` (`app.py`, `new_task`): trims title and description,
rejects an empty trimmed title, then parses the optional due date, then
appends a `Task` built without an explicit status, so the column default
`'pending'` applies, owned by the current user, and redirects to dashboard. -/
def new_task (db : DB) (current_user_id : Nat)
    (title description due_date_str : String)
    (nextId now : Nat) : Resp × DB :=
  let title := pyStrip title
  let description := pyStrip description
  if title = "" then
    (.render "task_form.html" (some ("Task title is required", "error")), db)
  else
    match parseDueField due_date_str with
    | .error _ =>
      (.render "task_form.html" (some ("Invalid due date format", "error")), db)
    | .ok due_date =>
      let task : Task :=
        { id := nextId, title := title, description := description,
          status := "pending", due_date := due_date,
          created_at := now, updated_at := now, user_id := current_user_id }
      (.redirect "/dashboard" (some ("Task created successfully!", "success")),
       { db with tasks := db.tasks ++ [task] })

/-- GET `/task/<id>/edit` (`app.py`, `edit_task`, non-POST branch): the
ownership-constrained lookup with 404, then the pre-filled form. -/
def edit_task_get (db : DB) (current_user_id task_id : Nat) : Resp × DB :=
  match first_or_404 db task_id current_user_id with
  | none => (.notFound, db)
  | some _ => (.render "task_form.html" none, db)

/-- POST `/task/<id>/edit` (`app.py`, `edit_task`): ownership-constrained
lookup with 404; then `request.form.get('status', 'pending')` — the submitted
status string is stored verbatim, with no validation against the two expected
values; title and due-date validation as in creation; on success the row is
updated in place with `updated_at = now` and the response redirects.
`statusField = none` models an absent `status` form field. -/
def edit_task (db : DB) (current_user_id task_id : Nat)
    (title description due_date_str : String) (statusField : Option String)
    (now : Nat) : Resp × DB :=
  match first_or_404 db task_id current_user_id with
  | none => (.notFound, db)
  | some task =>
    let title := pyStrip title
    let description := pyStrip description
    let status := statusField.getD "pending"
    if title = "" then
      (.render "task_form.html" (some ("Task title is required", "error")), db)
    else
      match parseDueField due_date_str with
      | .error _ =>
        (.render "task_form.html" (some ("Invalid due date format", "error")), db)
      | .ok due_date =>
        let task' := { task with title := title, description := description,
                                 due_date := due_date, status := status,
                                 updated_at := now }
        (.redirect "/dashboard" (some ("Task updated successfully!", "success")),
         db.updateTask task')

/-- POST `/task/<id>/delete` (`app.py`, `delete_task`): ownership-constrained
lookup with 404; on success the row is removed and the response redirects. -/
def delete_task (db : DB) (current_user_id task_id : Nat) : Resp × DB :=
  match first_or_404 db task_id current_user_id with
  | none => (.notFound, db)
  | some task =>
    (.redirect "/dashboard" (some ("Task deleted successfully!", "success")),
     { db with tasks := db.tasks.filter (fun t => !(t.id == task.id)) })

/-- POST `/api/task/<id>/toggle` (`app.py`, `toggle_task_status`):
ownership-constrained lookup with 404; flips the status with
`'completed' if task.status == 'pending' else 'pending'`, refreshes
`updated_at`, commits, and reports the new status in the JSON body. -/
def toggle_task_status (db : DB) (current_user_id task_id : Nat)
    (now : Nat) : Resp × DB :=
  match first_or_404 db task_id current_user_id with
  | none => (.notFound, db)
  | some task =>
    let newStatus := if task.status == "pending" then "completed" else "pending"
    let task' := { task with status := newStatus, updated_at := now }
    (.jsonToggleOk newStatus ("Task marked as " ++ newStatus),
     db.updateTask task')

/-- Python `round(q)` (no digits): round-half-to-even on the exact value.
The float arithmetic of the source is abstracted to exact rationals. -/
def pyRound0 (q : ℚ) : ℤ :=
  let f : ℤ := ⌊q⌋
  if q - f < 1/2 then f
  else if q - f > 1/2 then f + 1
  else if 2 ∣ f then f else f + 1

/-- Python `round(q, 1)`: round-half-to-even at one decimal place. -/
def pyRound1 (q : ℚ) : ℚ :=
  (pyRound0 (q * 10) : ℚ) / 10

/-- The dictionary returned by `User.get_task_stats` (`models.py`). -/
structure TaskStats where
  total : Nat
  completed : Nat
  pending : Nat
  completion_rate : ℚ
deriving Repr, DecidableEq

/-- `User.get_task_stats` (`models.py`): lengths over the user's task list and
`round((completed / total * 100) if total > 0 else 0, 1)`. -/
def get_task_stats (tasks : List Task) : TaskStats :=
  let total := tasks.length
  let completed := (tasks.filter (fun t => t.status == "completed")).length
  let pending := total - completed
  { total := total, completed := completed, pending := pending,
    completion_rate :=
      pyRound1 (if total > 0 then (completed : ℚ) / total * 100 else 0) }

/-- The tasks of one user, as the `tasks` relationship backing
`get_task_stats` resolves them. -/
def DB.tasksOf (db : DB) (user_id : Nat) : List Task :=
  db.tasks.filter (fun t => t.user_id == user_id)

/-- The fixed `sample_tasks` list of `seed-dev-data.py`, owned by the freshly
created demo user; row ids are assigned serially from `baseId`, timestamps
default to the insertion instant. -/
def sampleTasks (demo_user_id baseId now : Nat) : List Task :=
  [{ id := baseId, title := "Learn Docker fundamentals",
     description := "Complete the Docker workshop exercises and understand containerization concepts",
     status := "pending", due_date := some ⟨2025, 9, 20⟩,
     created_at := now, updated_at := now, user_id := demo_user_id },
   { id := baseId + 1, title := "Set up development environment",
     description := "Configure Docker Compose for local development with hot reload",
     status := "pending", due_date := some ⟨2025, 9, 18⟩,
     created_at := now, updated_at := now, user_id := demo_user_id },
   { id := baseId + 2, title := "Review Kubernetes concepts",
     description := "Prepare for tomorrow's Kubernetes session by reviewing container orchestration",
     status := "pending", due_date := some ⟨2025, 9, 19⟩,
     created_at := now, updated_at := now, user_id := demo_user_id },
   { id := baseId + 3, title := "Practice Git workflows",
     description := "Master branching, merging, and pull request workflows for team collaboration",
     status := "pending", due_date := none,
     created_at := now, updated_at := now, user_id := demo_user_id },
   { id := baseId + 4, title := "Install Docker Desktop",
     description := "Download and install Docker Desktop for local development",
     status := "completed", due_date := none,
     created_at := now, updated_at := now, user_id := demo_user_id },
   { id := baseId + 5, title := "Complete Git workshop",
     description := "Successfully completed Day 1 Git and GitHub workshop exercises",
     status := "completed", due_date := none,
     created_at := now, updated_at := now, user_id := demo_user_id },
   { id := baseId + 6, title := "Create GitHub account",
     description := "Set up GitHub account and configure SSH keys for secure access",
     status := "completed", due_date := none,
     created_at := now, updated_at := now, user_id := demo_user_id },
   { id := baseId + 7, title := "Fork demo repository",
     description := "Fork the workshop repository and clone it locally for hands-on practice",
     status := "completed", due_date := none,
     created_at := now, updated_at := now, user_id := demo_user_id },
   { id := baseId + 8, title := "Test Flask application",
     description := "Run the task manager application locally and verify all features work",
     status := "completed", due_date := none,
     created_at := now, updated_at := now, user_id := demo_user_id }]

/-- `seed_development_data` (`seed-dev-data.py`): looks up the `demo` user;
if absent, creates it (email `demo@taskmanager.dev`, hashed password) and
inserts the nine sample tasks, returning `True`; if present, performs no
writes and returns `False`.  The surrounding catch-all `except` is modelled by
the `unexpectedFailure` flag: when an unexpected error is raised anywhere in
the body, the utility swallows it and returns `False`. -/
def seed_development_data (db : DB) (nextUserId nextTaskId now : Nat)
    (unexpectedFailure : Bool) : Bool × DB :=
  if unexpectedFailure then (false, db)
  else
    match db.users.find? (fun u => u.username == "demo") with
    | some _ => (false, db)
    | none =>
      let demo_user : User :=
        { id := nextUserId, username := "demo", email := "demo@taskmanager.dev",
          password_hash := generate_password_hash "demo123",
          created_at := now, updated_at := now }
      (true, { users := db.users ++ [demo_user],
               tasks := db.tasks ++ sampleTasks demo_user.id nextTaskId now })

/-- One state-changing request, for reasoning about arbitrary operation
sequences: the form data of a register, create, edit or toggle request. -/
inductive AppOp where
  | registerOp (username email password : String) (nextId : Nat)
  | newTaskOp (uid : Nat) (title description due_date_str : String) (nextId : Nat)
  | editOp (uid tid : Nat) (title description due_date_str : String)
      (statusField : Option String)
  | toggleOp (uid tid : Nat)
deriving Repr

/-- The database after handling one request at instant `now` (the response is
dropped). -/
def applyOp (db : DB) (op : AppOp) (now : Nat) : DB :=
  match op with
  | .registerOp u e p nid => (register db u e p nid now).2
  | .newTaskOp uid t d due nid => (new_task db uid t d due nid now).2
  | .editOp uid tid t d due st => (edit_task db uid tid t d due st now).2
  | .toggleOp uid tid => (toggle_task_status db uid tid now).2

/-- A sequence of timestamped requests, applied in order. -/
def runOps (db : DB) (ops : List (AppOp × Nat)) : DB :=
  ops.foldl (fun d p => applyOp d p.1 p.2) db

/-- The `updated_at ≥ created_at` record invariant over the whole store. -/
def timestampsOk (db : DB) : Prop :=
  (∀ u ∈ db.users, u.created_at ≤ u.updated_at) ∧
  (∀ t ∈ db.tasks, t.created_at ≤ t.updated_at)

/-- The clock is ahead of every creation instant in the store (requests
happen after the records they touch were created). -/
def clockOk (db : DB) (now : Nat) : Prop :=
  (∀ u ∈ db.users, u.created_at ≤ now) ∧
  (∀ t ∈ db.tasks, t.created_at ≤ now)

/-- The two-value status set of the data model (`models.py` documents the
`status` column as `pending, completed`). -/
def statusOk (t : Task) : Prop :=
  t.status = "pending" ∨ t.status = "completed"

/-- Every task row of the store has one of the two expected statuses. -/
def statusInv (db : DB) : Prop :=
  ∀ t ∈ db.tasks, statusOk t

/- ===================== Helper lemmas ===================== -/

/-- The ownership-constrained lookup is empty exactly when no row has both
the requested id and the requesting owner. -/
theorem first_or_404_eq_none {db : DB} {tid uid : Nat}
    (h : ∀ t ∈ db.tasks, t.id = tid → t.user_id ≠ uid) :
    first_or_404 db tid uid = none := by
  unfold first_or_404
  rw [List.find?_eq_none]
  intro t ht
  simp only [Bool.and_eq_true, beq_iff_eq, not_and]
  intro h1 h2
  exact h t ht h1 h2

/-- After writing back a row that keeps the id of the row the lookup found
(and still satisfies the lookup predicate), the lookup finds exactly the
written row. -/
theorem find?_map_update {l : List Task} {p : Task → Bool} {t t' : Task}
    (hfind : l.find? p = some t) (hpt' : p t' = true) (hid : t'.id = t.id) :
    (l.map (fun x => if x.id == t'.id then t' else x)).find? p = some t' := by
  induction l with
  | nil => simp at hfind
  | cons x xs ih =>
    by_cases hxid : (x.id == t'.id) = true
    · rw [List.map_cons, if_pos hxid, List.find?_cons_of_pos _ hpt']
    · by_cases hx : p x = true
      · rw [List.find?_cons_of_pos _ hx] at hfind
        have hxt : x = t := by injection hfind
        exact absurd (by simp [hxt, hid]) hxid
      · rw [List.find?_cons_of_neg _ (by simpa using hx)] at hfind
        rw [List.map_cons, if_neg hxid,
          List.find?_cons_of_neg _ (by simpa using hx)]
        exact ih hfind

/-- What the lookup finds satisfies the lookup predicate, hence carries the
requested id and owner. -/
theorem first_or_404_some {db : DB} {tid uid : Nat} {t : Task}
    (h : first_or_404 db tid uid = some t) :
    t ∈ db.tasks ∧ t.id = tid ∧ t.user_id = uid := by
  unfold first_or_404 at h
  have hmem := List.mem_of_find?_eq_some h
  have hp := List.find?_some h
  simp only [Bool.and_eq_true, beq_iff_eq] at hp
  exact ⟨hmem, hp.1, hp.2⟩

/-- Specialisation of `find?_map_update` to `DB.updateTask` and the
ownership lookup. -/
theorem first_or_404_updateTask {db : DB} {tid uid : Nat} {t t' : Task}
    (hfind : first_or_404 db tid uid = some t)
    (hid : t'.id = t.id) (huid : t'.user_id = t.user_id) :
    first_or_404 (db.updateTask t') tid uid = some t' := by
  obtain ⟨-, hids, huids⟩ := first_or_404_some hfind
  unfold first_or_404 DB.updateTask at *
  exact find?_map_update hfind (by simp [hid, huid, hids, huids]) hid

/-- Writing back a row with one of the two statuses preserves the store-wide
two-value invariant. -/
theorem statusInv_updateTask {db : DB} {task : Task}
    (hdb : statusInv db) (h : statusOk task) : statusInv (db.updateTask task) := by
  intro t ht
  simp only [DB.updateTask, List.mem_map] at ht
  obtain ⟨x, hx, hfx⟩ := ht
  by_cases hid : (x.id == task.id) = true
  · rw [if_pos hid] at hfx
    rw [← hfx]
    exact h
  · rw [if_neg hid] at hfx
    rw [← hfx]
    exact hdb x hx

/-- Appending a row with one of the two statuses preserves the store-wide
two-value invariant. -/
theorem statusInv_append {db : DB} {nt : Task}
    (hdb : statusInv db) (h : statusOk nt) :
    statusInv { db with tasks := db.tasks ++ [nt] } := by
  intro t ht
  rcases List.mem_append.mp ht with h1 | h1
  · exact hdb t h1
  · rw [List.mem_singleton.mp h1]
    exact h

/-- The toggle route, when the lookup finds `t`: the JSON reports the flipped
status and the store holds exactly the flipped row. -/
theorem toggle_found {db : DB} {uid tid now : Nat} {t : Task}
    (hfind : first_or_404 db tid uid = some t) :
    (toggle_task_status db uid tid now).1 =
      .jsonToggleOk (if t.status == "pending" then "completed" else "pending")
        ("Task marked as " ++ (if t.status == "pending" then "completed" else "pending")) ∧
    first_or_404 (toggle_task_status db uid tid now).2 tid uid =
      some { t with status := (if t.status == "pending" then "completed" else "pending"),
                    updated_at := now } := by
  constructor
  · simp only [toggle_task_status, hfind]
  · simp only [toggle_task_status, hfind]
    exact first_or_404_updateTask hfind rfl rfl

/-- `toggle_found` specialised to a `pending` task: the flip lands on
`completed`. -/
theorem toggle_found_pending {db : DB} {uid tid now : Nat} {t : Task}
    (hfind : first_or_404 db tid uid = some t) (hst : t.status = "pending") :
    (toggle_task_status db uid tid now).1 =
      .jsonToggleOk "completed" "Task marked as completed" ∧
    first_or_404 (toggle_task_status db uid tid now).2 tid uid =
      some { t with status := "completed", updated_at := now } := by
  obtain ⟨h1, h2⟩ := @toggle_found db uid tid now t hfind
  rw [hst] at h1 h2
  simp at h1 h2
  exact ⟨h1, h2⟩

/-- `toggle_found` specialised to any non-`pending` stored status
(`completed` included): the flip lands on `pending`. -/
theorem toggle_found_other {db : DB} {uid tid now : Nat} {t : Task}
    (hfind : first_or_404 db tid uid = some t) (hst : t.status ≠ "pending") :
    (toggle_task_status db uid tid now).1 =
      .jsonToggleOk "pending" "Task marked as pending" ∧
    first_or_404 (toggle_task_status db uid tid now).2 tid uid =
      some { t with status := "pending", updated_at := now } := by
  obtain ⟨h1, h2⟩ := @toggle_found db uid tid now t hfind
  have hb : (t.status == "pending") = false := beq_eq_false_iff_ne.mpr hst
  rw [hb] at h1 h2
  simp at h1 h2
  exact ⟨h1, h2⟩

/-- The two equivalent ways the dashboard route counts a user's rows: the
status filter applied after the ownership filter equals the single combined
`filter_by(user_id=..., status=...)` query. -/
theorem filter_user_status (db : DB) (uid : Nat) (s : String) :
    (db.tasks.filter (fun t => t.user_id == uid)).filter (fun t => t.status == s) =
      db.tasks.filter (fun t => t.user_id == uid && t.status == s) := by
  rw [List.filter_filter]
  exact List.filter_congr fun a _ => Bool.and_comm _ _

/-- Under the two-value status assumption the pending and completed rows
partition the list. -/
theorem length_filter_pending_completed (l : List Task)
    (h : ∀ t ∈ l, t.status = "pending" ∨ t.status = "completed") :
    (l.filter (fun t => t.status == "pending")).length +
      (l.filter (fun t => t.status == "completed")).length = l.length := by
  induction l with
  | nil => rfl
  | cons x xs ih =>
    have hx := h x (List.mem_cons_self x xs)
    have hxs := ih fun t ht => h t (List.mem_cons_of_mem x ht)
    rcases hx with h1 | h1 <;> simp [List.filter_cons, h1] <;> omega

/-- Python `round()` never strays more than half a unit from its argument. -/
theorem pyRound0_sub_le (q : ℚ) : |(pyRound0 q : ℚ) - q| ≤ 1 / 2 := by
  have h1 : ((⌊q⌋ : ℤ) : ℚ) ≤ q := Int.floor_le q
  have h2 : q < ⌊q⌋ + 1 := Int.lt_floor_add_one q
  simp only [pyRound0]
  by_cases hc1 : q - ⌊q⌋ < 1 / 2
  · rw [if_pos hc1, abs_le]
    constructor <;> linarith
  · rw [if_neg hc1]
    by_cases hc2 : q - ⌊q⌋ > 1 / 2
    · rw [if_pos hc2]
      push_cast
      rw [abs_le]
      constructor <;> linarith
    · rw [if_neg hc2]
      have heq : q - ⌊q⌋ = 1 / 2 := le_antisymm (not_lt.mp hc2) (not_lt.mp hc1)
      by_cases hc3 : 2 ∣ ⌊q⌋
      · rw [if_pos hc3, abs_le]
        constructor <;> linarith
      · rw [if_neg hc3]
        push_cast
        rw [abs_le]
        constructor <;> linarith

/-- Python `round(q, 1)` produces an integer number of tenths, within a
twentieth of the exact value. -/
theorem pyRound1_props (q : ℚ) :
    (∃ n : ℤ, pyRound1 q = (n : ℚ) / 10) ∧ |pyRound1 q - q| ≤ 1 / 20 := by
  refine ⟨⟨pyRound0 (q * 10), rfl⟩, ?_⟩
  have h := pyRound0_sub_le (q * 10)
  unfold pyRound1
  have heq : (pyRound0 (q * 10) : ℚ) / 10 - q =
      ((pyRound0 (q * 10) : ℚ) - q * 10) / 10 := by ring
  rw [heq, abs_div, abs_of_pos (by norm_num : (0 : ℚ) < 10)]
  linarith

/-- The clock hypothesis is monotone in the instant. -/
theorem clockOk_mono {db : DB} {t1 t2 : Nat} (h : clockOk db t1) (hle : t1 ≤ t2) :
    clockOk db t2 :=
  ⟨fun u hu => le_trans (h.1 u hu) hle, fun t ht => le_trans (h.2 t ht) hle⟩

/-- The register route either leaves the store unchanged or appends the one
new user row. -/
theorem register_db_shape (db : DB) (u e p : String) (nid now : Nat) :
    (register db u e p nid now).2 = db ∨
    (register db u e p nid now).2 =
      { db with users := db.users ++
          [{ id := nid, username := pyStrip u, email := pyStrip e,
             password_hash := generate_password_hash p,
             created_at := now, updated_at := now }] } := by
  simp only [register]
  split_ifs <;> simp

/-- The create route either leaves the store unchanged or appends one task
row created and updated at the request instant. -/
theorem new_task_db_shape (db : DB) (uid : Nat) (t d due : String)
    (nid now : Nat) :
    (new_task db uid t d due nid now).2 = db ∨
    ∃ dd, (new_task db uid t d due nid now).2 =
      { db with tasks := db.tasks ++
          [{ id := nid, title := pyStrip t, description := pyStrip d,
             status := "pending", due_date := dd,
             created_at := now, updated_at := now, user_id := uid }] } := by
  by_cases h1 : pyStrip t = ""
  · left
    simp [new_task, h1]
  · cases hp : parseDueField due with
    | error e =>
      left
      simp [new_task, h1, hp]
    | ok dd =>
      right
      exact ⟨dd, by simp [new_task, h1, hp]⟩

/-- The edit route either leaves the store unchanged or writes back the found
row updated at the request instant. -/
theorem edit_task_db_shape (db : DB) (uid tid : Nat) (title d due : String)
    (st : Option String) (now : Nat) :
    (edit_task db uid tid title d due st now).2 = db ∨
    ∃ t dd, first_or_404 db tid uid = some t ∧
      (edit_task db uid tid title d due st now).2 =
        db.updateTask { t with title := pyStrip title, description := pyStrip d,
                               due_date := dd, status := st.getD "pending",
                               updated_at := now } := by
  cases hfind : first_or_404 db tid uid with
  | none =>
    left
    simp [edit_task, hfind]
  | some task =>
    by_cases ht : pyStrip title = ""
    · left
      simp [edit_task, hfind, ht]
    · cases hp : parseDueField due with
      | error e =>
        left
        simp [edit_task, hfind, hp, ht]
      | ok dd =>
        right
        exact ⟨task, dd, rfl, by simp [edit_task, hfind, hp, if_neg ht]⟩

/-- The toggle route either leaves the store unchanged or writes back the
found row, flipped and updated at the request instant. -/
theorem toggle_db_shape (db : DB) (uid tid now : Nat) :
    (toggle_task_status db uid tid now).2 = db ∨
    ∃ t, first_or_404 db tid uid = some t ∧
      (toggle_task_status db uid tid now).2 =
        db.updateTask { t with
          status := (if t.status == "pending" then "completed" else "pending"),
          updated_at := now } := by
  cases hfind : first_or_404 db tid uid with
  | none =>
    left
    simp [toggle_task_status, hfind]
  | some task =>
    right
    exact ⟨task, rfl, by simp [toggle_task_status, hfind]⟩

/-- Appending a user row whose timestamps are the current instant preserves
both record invariants. -/
theorem invariants_append_user {db : DB} {u : User} {now : Nat}
    (hts : timestampsOk db) (hck : clockOk db now)
    (h1 : u.created_at ≤ u.updated_at) (h2 : u.created_at ≤ now) :
    timestampsOk { db with users := db.users ++ [u] } ∧
    clockOk { db with users := db.users ++ [u] } now := by
  refine ⟨⟨?_, hts.2⟩, ⟨?_, hck.2⟩⟩ <;> intro v hv <;>
    rcases List.mem_append.mp hv with hm | hm
  · exact hts.1 v hm
  · rw [List.mem_singleton.mp hm]; exact h1
  · exact hck.1 v hm
  · rw [List.mem_singleton.mp hm]; exact h2

/-- Appending a task row whose timestamps are the current instant preserves
both record invariants. -/
theorem invariants_append_task {db : DB} {nt : Task} {now : Nat}
    (hts : timestampsOk db) (hck : clockOk db now)
    (h1 : nt.created_at ≤ nt.updated_at) (h2 : nt.created_at ≤ now) :
    timestampsOk { db with tasks := db.tasks ++ [nt] } ∧
    clockOk { db with tasks := db.tasks ++ [nt] } now := by
  refine ⟨⟨hts.1, ?_⟩, ⟨hck.1, ?_⟩⟩ <;> intro v hv <;>
    rcases List.mem_append.mp hv with hm | hm
  · exact hts.2 v hm
  · rw [List.mem_singleton.mp hm]; exact h1
  · exact hck.2 v hm
  · rw [List.mem_singleton.mp hm]; exact h2

/-- Writing back a row with a valid timestamp pair preserves both record
invariants. -/
theorem invariants_updateTask {db : DB} {t' : Task} {now : Nat}
    (hts : timestampsOk db) (hck : clockOk db now)
    (h1 : t'.created_at ≤ t'.updated_at) (h2 : t'.created_at ≤ now) :
    timestampsOk (db.updateTask t') ∧ clockOk (db.updateTask t') now := by
  refine ⟨⟨hts.1, ?_⟩, ⟨hck.1, ?_⟩⟩ <;> intro v hv <;>
    simp only [DB.updateTask, List.mem_map] at hv <;>
    obtain ⟨x, hx, hfx⟩ := hv
  · by_cases hid : (x.id == t'.id) = true
    · rw [if_pos hid] at hfx; rw [← hfx]; exact h1
    · rw [if_neg hid] at hfx; rw [← hfx]; exact hts.2 x hx
  · by_cases hid : (x.id == t'.id) = true
    · rw [if_pos hid] at hfx; rw [← hfx]; exact h2
    · rw [if_neg hid] at hfx; rw [← hfx]; exact hck.2 x hx

/-- One request handled at an instant not before any record's creation
preserves both record invariants. -/
theorem invariants_applyOp {db : DB} {op : AppOp} {now : Nat}
    (hts : timestampsOk db) (hck : clockOk db now) :
    timestampsOk (applyOp db op now) ∧ clockOk (applyOp db op now) now := by
  cases op with
  | registerOp u e p nid =>
    rcases register_db_shape db u e p nid now with h | h <;>
      simp only [applyOp, h]
    · exact ⟨hts, hck⟩
    · exact invariants_append_user hts hck (le_refl _) (le_refl _)
  | newTaskOp uid t d due nid =>
    rcases new_task_db_shape db uid t d due nid now with h | ⟨dd, h⟩ <;>
      simp only [applyOp, h]
    · exact ⟨hts, hck⟩
    · exact invariants_append_task hts hck (le_refl _) (le_refl _)
  | editOp uid tid t d due st =>
    rcases edit_task_db_shape db uid tid t d due st now with h | ⟨tk, dd, hfind, h⟩ <;>
      simp only [applyOp, h]
    · exact ⟨hts, hck⟩
    · have hmem : tk ∈ db.tasks := (first_or_404_some hfind).1
      exact invariants_updateTask hts hck (hck.2 tk hmem) (hck.2 tk hmem)
  | toggleOp uid tid =>
    rcases toggle_db_shape db uid tid now with h | ⟨tk, hfind, h⟩ <;>
      simp only [applyOp, h]
    · exact ⟨hts, hck⟩
    · have hmem : tk ∈ db.tasks := (first_or_404_some hfind).1
      exact invariants_updateTask hts hck (hck.2 tk hmem) (hck.2 tk hmem)

/- ===================== The claims ===================== -/

/-- C1 counterexample: the claim says the edit operation never stores a
status outside `pending`/`completed`, but a POST to `/task/1/edit` carrying
the form field `status=bogus` (valid title, no due date) stores the string
`bogus` verbatim in the task row. -/
theorem C1_edit_stores_arbitrary_status :
    (edit_task ⟨[], [⟨1, "T", "", "pending", none, 0, 0, 1⟩]⟩ 1 1
        "T" "" "" (some "bogus") 5).2 =
      ⟨[], [⟨1, "T", "", "bogus", none, 0, 5, 1⟩]⟩ ∧
    "bogus" ≠ "pending" ∧ "bogus" ≠ "completed" :=
  ⟨by rfl, by decide, by decide⟩

/-- C1 (amended): the toggle operation maps `pending` to `completed` and any
other stored status (in particular `completed`) to `pending`, so it never
produces a value outside the two and preserves the two-value invariant;
creation always stores `pending`; the edit operation, however, stores the
submitted status string verbatim (defaulting to `pending` when the field is
absent), so it keeps the status within the two values only when the
submitted value is one of them — not for arbitrary requests. -/
theorem C1_status_invariant_amended :
    (∀ db uid tid now t, first_or_404 db tid uid = some t →
      (toggle_task_status db uid tid now).1 =
        .jsonToggleOk (if t.status = "pending" then "completed" else "pending")
          ("Task marked as " ++ (if t.status = "pending" then "completed" else "pending"))) ∧
    (∀ db uid tid now, statusInv db →
      statusInv (toggle_task_status db uid tid now).2) ∧
    (∀ db uid title d due nid now, statusInv db →
      statusInv (new_task db uid title d due nid now).2) ∧
    (∀ db uid tid title d due st now t dd, first_or_404 db tid uid = some t →
      pyStrip title ≠ "" → parseDueField due = .ok dd →
      first_or_404 (edit_task db uid tid title d due st now).2 tid uid =
        some { t with title := pyStrip title, description := pyStrip d,
                      due_date := dd, status := st.getD "pending",
                      updated_at := now }) ∧
    (∀ db uid tid title d due st now, statusInv db →
      (st = none ∨ st = some "pending" ∨ st = some "completed") →
      statusInv (edit_task db uid tid title d due st now).2) := by
  refine ⟨?_, ?_, ?_, ?_, ?_⟩
  · intro db uid tid now t hfind
    by_cases h : t.status = "pending" <;>
      simp [toggle_task_status, hfind, h]
  · intro db uid tid now hdb
    unfold toggle_task_status
    cases hfind : first_or_404 db tid uid with
    | none => exact hdb
    | some task =>
      apply statusInv_updateTask hdb
      unfold statusOk
      by_cases h : (task.status == "pending") = true <;> simp [h]
  · intro db uid title d due nid now hdb
    unfold new_task
    by_cases h1 : pyStrip title = ""
    · rw [if_pos h1]
      exact hdb
    · rw [if_neg h1]
      cases hp : parseDueField due with
      | error e => exact hdb
      | ok dd => exact statusInv_append hdb (Or.inl rfl)
  · intro db uid tid title d due st now t dd hfind ht hp
    simp only [edit_task, hfind, hp, if_neg ht]
    exact first_or_404_updateTask hfind rfl rfl
  · intro db uid tid title d due st now hdb hst
    cases hfind : first_or_404 db tid uid with
    | none =>
      simp only [edit_task, hfind]
      exact hdb
    | some task =>
      by_cases ht : pyStrip title = ""
      · simp only [edit_task, hfind, if_pos ht]
        exact hdb
      · cases hp : parseDueField due with
        | error e =>
          simp only [edit_task, hfind, hp, if_neg ht]
          exact hdb
        | ok dd =>
          simp only [edit_task, hfind, hp, if_neg ht]
          apply statusInv_updateTask hdb
          unfold statusOk
          rcases hst with h | h | h <;> simp [h]

/-- C1 witness: on a store whose single task is `pending`, the toggle reports
`completed` and the store keeps the two-value invariant; an edit submitting
`status=completed` also keeps it. -/
theorem C1_status_invariant_amended_witness :
    (toggle_task_status ⟨[], [⟨1, "T", "", "pending", none, 0, 0, 1⟩]⟩ 1 1 5).1 =
      .jsonToggleOk "completed" "Task marked as completed" ∧
    statusInv (toggle_task_status ⟨[], [⟨1, "T", "", "pending", none, 0, 0, 1⟩]⟩ 1 1 5).2 ∧
    statusInv (edit_task ⟨[], [⟨1, "T", "", "pending", none, 0, 0, 1⟩]⟩ 1 1
        "T" "" "" (some "completed") 5).2 :=
  ⟨C1_status_invariant_amended.1 ⟨[], [⟨1, "T", "", "pending", none, 0, 0, 1⟩]⟩ 1 1 5
     ⟨1, "T", "", "pending", none, 0, 0, 1⟩ (by rfl),
   C1_status_invariant_amended.2.1 ⟨[], [⟨1, "T", "", "pending", none, 0, 0, 1⟩]⟩ 1 1 5
     (by unfold statusInv statusOk; decide),
   C1_status_invariant_amended.2.2.2.2 ⟨[], [⟨1, "T", "", "pending", none, 0, 0, 1⟩]⟩ 1 1
     "T" "" "" (some "completed") 5 (by unfold statusInv statusOk; decide) (Or.inr (Or.inr rfl))⟩

/-- C5: starting from a `pending` task, one toggle yields `completed` and a
second toggle on the same task restores `pending` (toggle composed with
itself is the identity on the status), and — for every task, whatever its
stored status — the persisted status after a successful toggle equals the
status reported in that toggle's JSON response. -/
theorem C5_toggle_involution :
    (∀ db uid tid now t, first_or_404 db tid uid = some t →
      ∃ s, (toggle_task_status db uid tid now).1 =
          .jsonToggleOk s ("Task marked as " ++ s) ∧
        (first_or_404 (toggle_task_status db uid tid now).2 tid uid).map Task.status =
          some s) ∧
    (∀ db uid tid n1 n2 t, first_or_404 db tid uid = some t →
      t.status = "pending" →
      (toggle_task_status db uid tid n1).1 =
        .jsonToggleOk "completed" "Task marked as completed" ∧
      first_or_404 (toggle_task_status db uid tid n1).2 tid uid =
        some { t with status := "completed", updated_at := n1 } ∧
      (toggle_task_status (toggle_task_status db uid tid n1).2 uid tid n2).1 =
        .jsonToggleOk "pending" "Task marked as pending" ∧
      first_or_404 (toggle_task_status (toggle_task_status db uid tid n1).2 uid tid n2).2
          tid uid =
        some { t with status := "pending", updated_at := n2 }) := by
  constructor
  · intro db uid tid now t hfind
    obtain ⟨h1, h2⟩ := @toggle_found db uid tid now t hfind
    exact ⟨_, h1, by rw [h2]; rfl⟩
  · intro db uid tid n1 n2 t hfind hst
    obtain ⟨h1, h2⟩ := @toggle_found_pending db uid tid n1 t hfind hst
    obtain ⟨h3, h4⟩ := @toggle_found_other _ uid tid n2 _ h2 (fun h => absurd h (by decide : ¬(("completed" : String) = "pending")))
    exact ⟨h1, h2, h3, h4⟩

/-- C5 witness: the single pending task of user 1 is toggled twice; the two
JSON responses report `completed` then `pending`, each matching the
persisted row. -/
theorem C5_toggle_involution_witness :
    (toggle_task_status ⟨[], [⟨1, "T", "", "pending", none, 0, 0, 1⟩]⟩ 1 1 3).1 =
      .jsonToggleOk "completed" "Task marked as completed" ∧
    first_or_404
        (toggle_task_status
          (toggle_task_status ⟨[], [⟨1, "T", "", "pending", none, 0, 0, 1⟩]⟩ 1 1 3).2
          1 1 4).2 1 1 =
      some ⟨1, "T", "", "pending", none, 0, 4, 1⟩ := by
  have h := C5_toggle_involution.2 ⟨[], [⟨1, "T", "", "pending", none, 0, 0, 1⟩]⟩ 1 1 3 4
    ⟨1, "T", "", "pending", none, 0, 0, 1⟩ (by rfl) (by rfl)
  exact ⟨h.1, h.2.2.2⟩

/-- C2: for an authenticated user and a task id, the edit, delete and toggle
routes all answer HTTP 404 — both when no task with that id exists and when
it exists but belongs to another user (the hypothesis covers both cases
uniformly) — with the identical response in either case and the store left
untouched. -/
theorem C2_task_routes_404_uniform (db : DB) (uid tid : Nat)
    (h : ∀ t ∈ db.tasks, t.id = tid → t.user_id ≠ uid)
    (title description due_date_str : String) (statusField : Option String)
    (now : Nat) :
    edit_task db uid tid title description due_date_str statusField now = (.notFound, db) ∧
    edit_task_get db uid tid = (.notFound, db) ∧
    delete_task db uid tid = (.notFound, db) ∧
    toggle_task_status db uid tid now = (.notFound, db) ∧
    Resp.notFound.statusCode = 404 := by
  have hnone := first_or_404_eq_none h
  refine ⟨?_, ?_, ?_, ?_, rfl⟩ <;>
    simp [edit_task, edit_task_get, delete_task, toggle_task_status, hnone]

/-- C2 witness: a store holding one task of user 1; user 2 requests that very
id (owned by someone else) and all three routes 404 without a write. -/
theorem C2_task_routes_404_uniform_witness :
    edit_task ⟨[], [⟨1, "T", "", "pending", none, 0, 0, 1⟩]⟩ 2 1 "x" "" "" none 9 =
      (.notFound, ⟨[], [⟨1, "T", "", "pending", none, 0, 0, 1⟩]⟩) ∧
    toggle_task_status ⟨[], [⟨1, "T", "", "pending", none, 0, 0, 1⟩]⟩ 2 1 9 =
      (.notFound, ⟨[], [⟨1, "T", "", "pending", none, 0, 0, 1⟩]⟩) := by
  have h := C2_task_routes_404_uniform ⟨[], [⟨1, "T", "", "pending", none, 0, 0, 1⟩]⟩ 2 1
    (by decide) "x" "" "" none 9
  exact ⟨h.1, h.2.2.2.1⟩

/-- C3: a POST to `/register` runs its checks in exactly this order —
empty field (after trimming username and email, password as-is) →
"All fields are required"; password shorter than 6 → "Password must be at
least 6 characters"; username taken → "Username already exists"; email
taken → "Email already registered" — each rejection re-rendering the form
(HTTP 200) with no `User` created; otherwise a `User` with a hashed
password is appended and the response is a 302 redirect to login. -/
theorem C3_register_validation (db : DB) (username email password : String)
    (nextId now : Nat) :
    (pyStrip username = "" ∨ pyStrip email = "" ∨ password = "" →
      register db username email password nextId now =
        (.render "register.html" (some ("All fields are required", "error")), db)) ∧
    (¬(pyStrip username = "" ∨ pyStrip email = "" ∨ password = "") →
     password.length < 6 →
      register db username email password nextId now =
        (.render "register.html" (some ("Password must be at least 6 characters", "error")), db)) ∧
    (¬(pyStrip username = "" ∨ pyStrip email = "" ∨ password = "") →
     ¬password.length < 6 →
     (db.users.find? (fun u => u.username == pyStrip username)).isSome = true →
      register db username email password nextId now =
        (.render "register.html" (some ("Username already exists", "error")), db)) ∧
    (¬(pyStrip username = "" ∨ pyStrip email = "" ∨ password = "") →
     ¬password.length < 6 →
     (db.users.find? (fun u => u.username == pyStrip username)).isSome = false →
     (db.users.find? (fun u => u.email == pyStrip email)).isSome = true →
      register db username email password nextId now =
        (.render "register.html" (some ("Email already registered", "error")), db)) ∧
    (¬(pyStrip username = "" ∨ pyStrip email = "" ∨ password = "") →
     ¬password.length < 6 →
     (db.users.find? (fun u => u.username == pyStrip username)).isSome = false →
     (db.users.find? (fun u => u.email == pyStrip email)).isSome = false →
      register db username email password nextId now =
        (.redirect "/login" (some ("Registration successful! Please log in.", "success")),
         { db with users := db.users ++
             [{ id := nextId, username := pyStrip username, email := pyStrip email,
                password_hash := generate_password_hash password,
                created_at := now, updated_at := now }] })) ∧
    (∀ m, (Resp.render "register.html" m).statusCode = 200) ∧
    (∀ m, (Resp.redirect "/login" m).statusCode = 302) := by
  refine ⟨?_, ?_, ?_, ?_, ?_, fun m => rfl, fun m => rfl⟩
  · intro h1
    simp [register, h1]
  · intro h1 h2
    simp [register, h1, h2]
  · intro h1 h2 h3
    simp [register, h1, h2, h3]
  · intro h1 h2 h3 h4
    simp [register, h1, h2, h3, h4]
  · intro h1 h2 h3 h4
    simp [register, h1, h2, h3, h4]

/-- C3 witness: on an empty store, a valid registration creates exactly the
hashed-password user and redirects to login; a 3-character password is
rejected with the stated message and no user row. -/
theorem C3_register_validation_witness :
    register ⟨[], []⟩ "alice" "a@example.com" "secret123" 1 7 =
      (.redirect "/login" (some ("Registration successful! Please log in.", "success")),
       ⟨[⟨1, "alice", "a@example.com", generate_password_hash "secret123", 7, 7⟩], []⟩) ∧
    register ⟨[], []⟩ "bob" "b@example.com" "abc" 1 7 =
      (.render "register.html" (some ("Password must be at least 6 characters", "error")),
       ⟨[], []⟩) :=
  ⟨(C3_register_validation ⟨[], []⟩ "alice" "a@example.com" "secret123" 1 7).2.2.2.2.1
     (by decide) (by decide) (by rfl) (by rfl),
   (C3_register_validation ⟨[], []⟩ "bob" "b@example.com" "abc" 1 7).2.1
     (by decide) (by decide)⟩

/-- C4: a POST to `/task/new` creates a task record exactly when the trimmed
title is non-empty and a supplied due-date string parses as `YYYY-MM-DD`:
an empty trimmed title is answered with "Task title is required" and no
record; an unparseable due date with "Invalid due date format" and no
record; on success the appended task is owned by the current user, has
status `pending`, and the response is a 302 redirect to the dashboard. -/
theorem C4_new_task_validation (db : DB) (uid : Nat)
    (title description due_date_str : String) (nextId now : Nat) :
    (pyStrip title = "" →
      new_task db uid title description due_date_str nextId now =
        (.render "task_form.html" (some ("Task title is required", "error")), db)) ∧
    (pyStrip title ≠ "" → due_date_str ≠ "" → strptimeYmd due_date_str = none →
      new_task db uid title description due_date_str nextId now =
        (.render "task_form.html" (some ("Invalid due date format", "error")), db)) ∧
    (∀ dd, pyStrip title ≠ "" → parseDueField due_date_str = .ok dd →
      new_task db uid title description due_date_str nextId now =
        (.redirect "/dashboard" (some ("Task created successfully!", "success")),
         { db with tasks := db.tasks ++
             [{ id := nextId, title := pyStrip title, description := pyStrip description,
                status := "pending", due_date := dd,
                created_at := now, updated_at := now, user_id := uid }] })) ∧
    (∀ m, (Resp.render "task_form.html" m).statusCode = 200) ∧
    (∀ m, (Resp.redirect "/dashboard" m).statusCode = 302) := by
  refine ⟨?_, ?_, ?_, fun m => rfl, fun m => rfl⟩
  · intro h1
    simp [new_task, h1]
  · intro h1 h2 h3
    simp [new_task, parseDueField, h1, h2, h3]
  · intro dd h1 h2
    simp [new_task, h1, h2]

/-- C4 witness: an authenticated create with a valid date appends exactly the
pending task owned by user 1; an empty title and a malformed date are each
rejected with the stated message and no task row. -/
theorem C4_new_task_validation_witness :
    new_task ⟨[], []⟩ 1 "Test Task" "d" "2025-12-31" 1 3 =
      (.redirect "/dashboard" (some ("Task created successfully!", "success")),
       ⟨[], [⟨1, "Test Task", "d", "pending", some ⟨2025, 12, 31⟩, 3, 3, 1⟩]⟩) ∧
    new_task ⟨[], []⟩ 1 "  " "d" "" 1 3 =
      (.render "task_form.html" (some ("Task title is required", "error")), ⟨[], []⟩) ∧
    new_task ⟨[], []⟩ 1 "Test Task" "d" "not-a-date" 1 3 =
      (.render "task_form.html" (some ("Invalid due date format", "error")), ⟨[], []⟩) :=
  ⟨(C4_new_task_validation ⟨[], []⟩ 1 "Test Task" "d" "2025-12-31" 1 3).2.2.1
     (some ⟨2025, 12, 31⟩) (by decide) (by rfl),
   (C4_new_task_validation ⟨[], []⟩ 1 "  " "d" "" 1 3).1 (by rfl),
   (C4_new_task_validation ⟨[], []⟩ 1 "Test Task" "d" "not-a-date" 1 3).2.1
     (by decide) (by decide) (by rfl)⟩

/-- C6: for a user whose tasks all carry one of the two statuses,
`/dashboard?status=pending` returns exactly the user's pending rows,
`status=completed` exactly the completed rows, `status=all` or an omitted
parameter all N rows; the three displayed counts are (N, P, C) whatever
filter is active, with P + C = N; and every returned row belongs to the
requesting user. -/
theorem C6_dashboard_filter_counts (db : DB) (uid : Nat)
    (h : ∀ t ∈ db.tasksOf uid, t.status = "pending" ∨ t.status = "completed") :
    dashboard_tasks db uid (some "pending") =
      (db.tasksOf uid).filter (fun t => t.status == "pending") ∧
    (∀ t ∈ dashboard_tasks db uid (some "pending"),
      t.status = "pending" ∧ t.user_id = uid) ∧
    dashboard_tasks db uid (some "completed") =
      (db.tasksOf uid).filter (fun t => t.status == "completed") ∧
    (∀ t ∈ dashboard_tasks db uid (some "completed"),
      t.status = "completed" ∧ t.user_id = uid) ∧
    dashboard_tasks db uid (some "all") = db.tasksOf uid ∧
    dashboard_tasks db uid none = db.tasksOf uid ∧
    (∀ statusParam, (dashboard db uid statusParam).2 =
      ((db.tasksOf uid).length,
       (dashboard_tasks db uid (some "pending")).length,
       (dashboard_tasks db uid (some "completed")).length)) ∧
    (dashboard_tasks db uid (some "pending")).length +
      (dashboard_tasks db uid (some "completed")).length = (db.tasksOf uid).length ∧
    (∀ statusParam, ∀ t ∈ dashboard_tasks db uid statusParam, t.user_id = uid) := by
  have hpend : dashboard_tasks db uid (some "pending") =
      (db.tasksOf uid).filter (fun t => t.status == "pending") := by
    simp [dashboard_tasks, DB.tasksOf]
  have hcomp : dashboard_tasks db uid (some "completed") =
      (db.tasksOf uid).filter (fun t => t.status == "completed") := by
    simp [dashboard_tasks, DB.tasksOf]
  refine ⟨hpend, ?_, hcomp, ?_, by simp [dashboard_tasks, DB.tasksOf],
    by simp [dashboard_tasks, DB.tasksOf], ?_, ?_, ?_⟩
  · intro t ht
    rw [hpend] at ht
    have h1 := List.of_mem_filter ht
    have h2 := List.of_mem_filter (List.mem_of_mem_filter ht)
    simp only [beq_iff_eq] at h1 h2
    exact ⟨h1, h2⟩
  · intro t ht
    rw [hcomp] at ht
    have h1 := List.of_mem_filter ht
    have h2 := List.of_mem_filter (List.mem_of_mem_filter ht)
    simp only [beq_iff_eq] at h1 h2
    exact ⟨h1, h2⟩
  · intro statusParam
    simp only [dashboard, task_counts, hpend, hcomp, DB.tasksOf]
    rw [filter_user_status, filter_user_status]
  · rw [hpend, hcomp]
    exact length_filter_pending_completed _ h
  · intro statusParam t ht
    have hmem : t ∈ db.tasksOf uid := by
      simp only [dashboard_tasks] at ht
      split at ht
      · exact List.mem_of_mem_filter ht
      · exact ht
    have := List.of_mem_filter hmem
    simpa using this

/-- C6 witness: user 1 owns one pending and one completed task, a stranger's
task also exists; whatever the filter, the counts are (2, 1, 1), and the
pending view holds exactly the pending row. -/
theorem C6_dashboard_filter_counts_witness :
    (dashboard ⟨[], [⟨1, "A", "", "pending", none, 0, 0, 1⟩,
                     ⟨2, "B", "", "completed", none, 0, 0, 1⟩,
                     ⟨3, "C", "", "pending", none, 0, 0, 2⟩]⟩ 1 (some "completed")).2 =
      (2, 1, 1) ∧
    dashboard_tasks ⟨[], [⟨1, "A", "", "pending", none, 0, 0, 1⟩,
                          ⟨2, "B", "", "completed", none, 0, 0, 1⟩,
                          ⟨3, "C", "", "pending", none, 0, 0, 2⟩]⟩ 1 (some "pending") =
      [⟨1, "A", "", "pending", none, 0, 0, 1⟩] := by
  have h := C6_dashboard_filter_counts ⟨[], [⟨1, "A", "", "pending", none, 0, 0, 1⟩,
    ⟨2, "B", "", "completed", none, 0, 0, 1⟩, ⟨3, "C", "", "pending", none, 0, 0, 2⟩]⟩ 1
    (by unfold DB.tasksOf; decide)
  exact ⟨h.2.2.2.2.2.2.1 (some "completed"), h.1⟩

/-- C7: `User.get_task_stats` reports total = the number of the user's task
rows, completed = the number of those with status `completed`, pending =
total − completed, and a completion rate that is an exact number of tenths of
a percent within half a tenth of completed/total·100 (the one-decimal
rounding), and exactly 0 when the user has no tasks. -/
theorem C7_task_stats (db : DB) (uid : Nat) :
    (get_task_stats (db.tasksOf uid)).total = (db.tasksOf uid).length ∧
    (get_task_stats (db.tasksOf uid)).completed =
      ((db.tasksOf uid).filter (fun t => t.status == "completed")).length ∧
    (get_task_stats (db.tasksOf uid)).pending =
      (get_task_stats (db.tasksOf uid)).total -
        (get_task_stats (db.tasksOf uid)).completed ∧
    ((db.tasksOf uid).length = 0 →
      (get_task_stats (db.tasksOf uid)).completion_rate = 0) ∧
    ((db.tasksOf uid).length ≠ 0 →
      (∃ n : ℤ, (get_task_stats (db.tasksOf uid)).completion_rate = (n : ℚ) / 10) ∧
      |(get_task_stats (db.tasksOf uid)).completion_rate -
          ((get_task_stats (db.tasksOf uid)).completed : ℚ) /
            ((db.tasksOf uid).length : ℚ) * 100| ≤ 1 / 20) := by
  refine ⟨rfl, rfl, rfl, ?_, ?_⟩
  · intro h0
    simp only [get_task_stats, h0]
    norm_num [pyRound1, pyRound0]
  · intro h0
    have hpos : 0 < (db.tasksOf uid).length := Nat.pos_of_ne_zero h0
    have hrate : (get_task_stats (db.tasksOf uid)).completion_rate =
        pyRound1 ((((db.tasksOf uid).filter
            (fun t => t.status == "completed")).length : ℚ) /
          ((db.tasksOf uid).length : ℚ) * 100) := by
      simp [get_task_stats, hpos]
    rw [hrate]
    exact pyRound1_props _

/-- C7 witness: a user with three tasks, two completed — the reported rate is
a whole number of tenths within half a tenth of 2/3·100 (i.e. it is 66.7). -/
theorem C7_task_stats_witness :
    (∃ n : ℤ, (get_task_stats (DB.tasksOf
        ⟨[], [⟨1, "A", "", "completed", none, 0, 0, 1⟩,
              ⟨2, "B", "", "completed", none, 0, 0, 1⟩,
              ⟨3, "C", "", "pending", none, 0, 0, 1⟩]⟩ 1)).completion_rate =
      (n : ℚ) / 10) ∧
    |(get_task_stats (DB.tasksOf
        ⟨[], [⟨1, "A", "", "completed", none, 0, 0, 1⟩,
              ⟨2, "B", "", "completed", none, 0, 0, 1⟩,
              ⟨3, "C", "", "pending", none, 0, 0, 1⟩]⟩ 1)).completion_rate -
        ((2 : Nat) : ℚ) / ((3 : Nat) : ℚ) * 100| ≤ 1 / 20 :=
  (C7_task_stats ⟨[], [⟨1, "A", "", "completed", none, 0, 0, 1⟩,
     ⟨2, "B", "", "completed", none, 0, 0, 1⟩,
     ⟨3, "C", "", "pending", none, 0, 0, 1⟩]⟩ 1).2.2.2.2 (by decide)

/-- C8: every User and Task record satisfies `updated_at ≥ created_at` at
creation (both fields are set to the same instant) and after any sequence of
the mutating requests (register, task creation, edit, toggle), provided the
request instants do not run backwards: each request happens no earlier than
any record creation before it. -/
theorem C8_updated_at_ge_created_at (db : DB) (t0 : Nat)
    (ops : List (AppOp × Nat))
    (hts : timestampsOk db) (hck : clockOk db t0)
    (hsorted : List.Pairwise (fun p q => p.2 ≤ q.2) ops)
    (hstart : ∀ p ∈ ops, t0 ≤ p.2) :
    timestampsOk (runOps db ops) := by
  induction ops generalizing db t0 with
  | nil => exact hts
  | cons p rest ih =>
    have hck1 : clockOk db p.2 :=
      clockOk_mono hck (hstart p (List.mem_cons_self p rest))
    obtain ⟨hts2, hck2⟩ := @invariants_applyOp db p.1 p.2 hts hck1
    have hpair := List.pairwise_cons.mp hsorted
    exact ih (applyOp db p.1 p.2) p.2 hts2 hck2 hpair.2 hpair.1

/-- C8 witness: from an empty store, a registration, a task creation, an
edit and a toggle at increasing instants leave every record with
`updated_at ≥ created_at`. -/
theorem C8_updated_at_ge_created_at_witness :
    timestampsOk (runOps ⟨[], []⟩
      [(.registerOp "alice" "a@example.com" "secret123" 1, 5),
       (.newTaskOp 1 "T" "" "" 1, 6),
       (.editOp 1 1 "U" "" "" (some "completed"), 7),
       (.toggleOp 1 1, 8)]) :=
  C8_updated_at_ge_created_at ⟨[], []⟩ 5
    [(.registerOp "alice" "a@example.com" "secret123" 1, 5),
     (.newTaskOp 1 "T" "" "" 1, 6),
     (.editOp 1 1 "U" "" "" (some "completed"), 7),
     (.toggleOp 1 1, 8)]
    (by unfold timestampsOk; decide)
    (by unfold clockOk; decide)
    (by simp)
    (by simp)

/-- C9: when no `demo` user exists, the seed utility creates that user and
exactly 9 tasks it owns — the 4 pending ones carrying due dates 2025-09-20,
2025-09-18, 2025-09-19 and one no due date, the 5 completed ones carrying no
due dates — and returns true; when the demo user exists it performs no
writes and returns false; an unexpected failure is swallowed and the utility
returns false instead of propagating. -/
theorem C9_seed_development_data (db : DB) (nextUserId nextTaskId now : Nat) :
    (db.users.find? (fun u => u.username == "demo") = none →
      seed_development_data db nextUserId nextTaskId now false =
        (true, { users := db.users ++
                   [{ id := nextUserId, username := "demo",
                      email := "demo@taskmanager.dev",
                      password_hash := generate_password_hash "demo123",
                      created_at := now, updated_at := now }],
                 tasks := db.tasks ++ sampleTasks nextUserId nextTaskId now })) ∧
    (sampleTasks nextUserId nextTaskId now).length = 9 ∧
    ((sampleTasks nextUserId nextTaskId now).filter
        (fun t => t.status == "pending")).map (fun t => t.due_date) =
      [some ⟨2025, 9, 20⟩, some ⟨2025, 9, 18⟩, some ⟨2025, 9, 19⟩, none] ∧
    ((sampleTasks nextUserId nextTaskId now).filter
        (fun t => t.status == "completed")).map (fun t => t.due_date) =
      [none, none, none, none, none] ∧
    (∀ t ∈ sampleTasks nextUserId nextTaskId now, t.user_id = nextUserId ∧
      (t.status = "pending" ∨ t.status = "completed")) ∧
    (∀ u, db.users.find? (fun v => v.username == "demo") = some u →
      seed_development_data db nextUserId nextTaskId now false = (false, db)) ∧
    seed_development_data db nextUserId nextTaskId now true = (false, db) := by
  refine ⟨?_, rfl, rfl, rfl, ?_, ?_, rfl⟩
  · intro h
    simp [seed_development_data, h]
  · intro t ht
    simp only [sampleTasks, List.mem_cons, List.not_mem_nil, or_false] at ht
    rcases ht with h | h | h | h | h | h | h | h | h <;> subst h <;>
      first
        | exact ⟨rfl, Or.inl rfl⟩
        | exact ⟨rfl, Or.inr rfl⟩
  · intro u hu
    simp [seed_development_data, hu]

/-- C9 witness: seeding an empty store creates the demo user and the nine
sample tasks and returns true; seeding a store that already has a `demo`
user writes nothing and returns false. -/
theorem C9_seed_development_data_witness :
    seed_development_data ⟨[], []⟩ 1 1 2 false =
      (true, { users := [⟨1, "demo", "demo@taskmanager.dev",
                          generate_password_hash "demo123", 2, 2⟩],
               tasks := sampleTasks 1 1 2 }) ∧
    seed_development_data ⟨[⟨1, "demo", "x", "h", 0, 0⟩], []⟩ 2 1 2 false =
      (false, ⟨[⟨1, "demo", "x", "h", 0, 0⟩], []⟩) :=
  ⟨(C9_seed_development_data ⟨[], []⟩ 1 1 2).1 (by rfl),
   (C9_seed_development_data ⟨[⟨1, "demo", "x", "h", 0, 0⟩], []⟩ 2 1 2).2.2.2.2.2.1
     ⟨1, "demo", "x", "h", 0, 0⟩ (by rfl)⟩

/-- C10: a successful login POST carrying a non-empty `next` query parameter
redirects to exactly that value, verbatim; nothing restricts the target to a
local URL (the statement holds for every non-empty string, external
destinations included). -/
theorem C10_login_redirects_to_next_verbatim (db : DB) (u : User)
    (username password nxt : String)
    (hfind : db.users.find? (fun v => v.username == pyStrip username) = some u)
    (hpw : check_password_hash u.password_hash password = true)
    (huser : pyStrip username ≠ "") (hpass : password ≠ "") (hnxt : nxt ≠ "") :
    login db username password (some nxt) = .redirect nxt none ∧
    (Resp.redirect nxt none).statusCode = 302 := by
  refine ⟨?_, rfl⟩
  unfold login
  rw [if_neg (by simp [huser, hpass]), hfind]
  simp [hpw, hnxt]

/-- C10 witness: with the stored hash of `secret123`, a login carrying
`next=http://evil.example/phish` is answered by a redirect to that external
URL verbatim. -/
theorem C10_login_redirects_to_next_verbatim_witness :
    login ⟨[⟨1, "alice", "a@example.com", generate_password_hash "secret123", 0, 0⟩], []⟩
        "alice" "secret123" (some "http://evil.example/phish") =
      .redirect "http://evil.example/phish" none :=
  (C10_login_redirects_to_next_verbatim
    ⟨[⟨1, "alice", "a@example.com", generate_password_hash "secret123", 0, 0⟩], []⟩
    ⟨1, "alice", "a@example.com", generate_password_hash "secret123", 0, 0⟩
    "alice" "secret123" "http://evil.example/phish"
    (by rfl) (by rfl) (by decide) (by decide) (by decide)).1

end TodoApp
